import Mathlib

/-!
Shallow embedding of the Tixy webhook backend (src/app.py and
src/register-organizer.py) and verification of its design contract.

External collaborators (OpenAI embedding/completion, Pinecone, ManyChat)
are modelled as oracles packaged in an environment record; the vector
store is modelled as explicit state (association lists keyed by string
ids).  Each workflow is a pure function from an environment, a store and
a request payload to an outcome, an updated store and a trace of the
external calls it attempted.  A Python exception is an `Except.error`;
`create_event` wraps its body in the try/except of app.py lines 43-107,
while `register_organizer` has no handler, exactly as in the source.
-/

namespace Tixy

/-- A Python-level exception raised by an embedded operation. -/
inductive PyErr where
  | keyError : String → PyErr
  | transport : String → PyErr
  | serviceError : String → PyErr
  deriving DecidableEq

/-- The message `str(e)` carried by an exception (Python renders a
KeyError as the quoted key; the exact rendering is incidental). -/
def PyErr.msg : PyErr → String
  | .keyError k => "KeyError: " ++ k
  | .transport m => m
  | .serviceError m => m

/-- One attempted call to an external collaborator, as recorded in a
workflow trace.  `evalCall` records the text handed to the Python
builtin `eval` at app.py line 65. -/
inductive ExtCall where
  | completionCall : String → ExtCall
  | evalCall : String → ExtCall
  | fetchOrganizer : String → ExtCall
  | embedCall : Option String → ExtCall
  | upsertOrganizer : String → ExtCall
  | upsertEvent : String → ExtCall
  | notifyCall : String → String → Option String → ExtCall
  | setAttr : Option String → String → String → ExtCall
  deriving DecidableEq

def ExtCall.isEmbed : ExtCall → Bool
  | .embedCall _ => true
  | _ => false

def ExtCall.isUpsertOrganizer : ExtCall → Bool
  | .upsertOrganizer _ => true
  | _ => false

def ExtCall.isUpsertEvent : ExtCall → Bool
  | .upsertEvent _ => true
  | _ => false

/-- Metadata stored with an organizer vector (register-organizer.py
lines 73-78; the `**data` spread re-adds the same three modelled keys). -/
structure OrganizerRecord where
  organizer_name : String
  organizer_email : String
  messenger_user_id : String
  embedding : Nat
  deriving DecidableEq

/-- Metadata stored with an event vector (app.py lines 85-94). -/
structure EventRecord where
  organizer_email : String
  event_title : String
  event_description : Option String
  event_start_date : String
  event_end_date : String
  event_location : String
  event_location_map : Option String
  event_graphics : Option String
  embedding : Nat
  deriving DecidableEq

/-- The two Pinecone indexes, as association lists keyed by id. -/
structure Store where
  organizers : List (String × OrganizerRecord)
  events : List (String × EventRecord)
  deriving DecidableEq

/-- Pinecone upsert replaces any existing record at the key. -/
def Store.upsertOrganizerRec (s : Store) (key : String) (r : OrganizerRecord) : Store :=
  { s with organizers := (key, r) :: s.organizers.filter (fun p => !(p.1 == key)) }

def Store.upsertEventRec (s : Store) (key : String) (r : EventRecord) : Store :=
  { s with events := (key, r) :: s.events.filter (fun p => !(p.1 == key)) }

/-- A JSON response body produced by `jsonify` in either workflow. -/
inductive RespBody where
  | message : String → RespBody
  | error : String → RespBody
  | errorWithDetails : String → List (String × String) → RespBody
  deriving DecidableEq

/-- An HTTP response: status code plus JSON body. -/
structure Resp where
  status : Nat
  body : RespBody
  deriving DecidableEq

instance {ε α : Type} [DecidableEq ε] [DecidableEq α] : DecidableEq (Except ε α) := fun x y =>
  match x, y with
  | .ok a, .ok b =>
    match decEq a b with
    | isTrue h => isTrue (by rw [h])
    | isFalse h => isFalse (by intro hc; cases hc; exact h rfl)
  | .ok _, .error _ => isFalse (by intro hc; cases hc)
  | .error _, .ok _ => isFalse (by intro hc; cases hc)
  | .error a, .error b =>
    match decEq a b with
    | isTrue h => isTrue (by rw [h])
    | isFalse h => isFalse (by intro hc; cases hc; exact h rfl)

/-- Result of running one workflow: the outcome (an HTTP response, or an
uncaught Python exception), the vector store afterwards, and the trace
of attempted external calls. -/
structure RunResult where
  outcome : Except PyErr Resp
  store : Store
  calls : List ExtCall
  deriving DecidableEq

def isOkResp (x : Except PyErr Resp) : Bool :=
  match x with
  | .ok _ => true
  | .error _ => false

def respHasDetails (x : Except PyErr Resp) : Bool :=
  match x with
  | .ok ⟨_, .errorWithDetails _ _⟩ => true
  | _ => false

/-- Python truthiness of an optional string field: `None` and `""` are
falsy, any other string is truthy (app.py line 56 `all([...])`). -/
def pyTruthy : Option String → Bool
  | none => false
  | some s => !(s == "")

/-- Python f-string rendering of an optional value (`None` prints as
"None"). -/
def pyStr : Option String → String
  | none => "None"
  | some s => s

/-! ## register-organizer.py -/

/-- Oracles for the external services used by register-organizer.py:
the OpenAI embedding call (line 69, may raise) and the ManyChat
`requests.post` of `send_to_manychat` (line 49, may raise; on success
returns the HTTP status code). -/
structure RegEnv where
  embed : String → Except PyErr Nat
  notifyPost : String → String → Option String → Except PyErr Nat

/-- The registration request payload; only the three fields the code
reads are modelled.  A missing key makes `data[...]` raise `KeyError`. -/
structure RegInput where
  messenger_user_id : Option String
  organizer_name : Option String
  organizer_email : Option String
  deriving DecidableEq

/-- register-organizer.py lines 37-50.  `requests.post` is not guarded,
so a transport error propagates to the caller; otherwise the function
returns whether the status code was 200. -/
def send_to_manychat (env : RegEnv) (messenger_user_id content_id : String)
    (error_message : Option String) : Except PyErr Bool :=
  match env.notifyPost messenger_user_id content_id error_message with
  | .error e => .error e
  | .ok code => .ok (code == 200)

/-- register-organizer.py lines 53-83.  There is no try/except and no
field validation: `data[...]` raises `KeyError` on a missing field and
the exception propagates. -/
def register_organizer (env : RegEnv) (store : Store) (data : RegInput) : RunResult :=
  match data.messenger_user_id with
  | none => ⟨.error (.keyError "messenger_user_id"), store, []⟩
  | some messenger_user_id =>
    match data.organizer_name with
    | none => ⟨.error (.keyError "organizer_name"), store, []⟩
    | some organizer_name =>
      match data.organizer_email with
      | none => ⟨.error (.keyError "organizer_email"), store, []⟩
      | some organizer_email =>
        let t1 := [ExtCall.fetchOrganizer organizer_email]
        if (store.organizers.lookup organizer_email).isSome then
          let t2 := t1 ++ [ExtCall.notifyCall messenger_user_id
            "content20240917152105_198581" (some "Organizer with this email already exists")]
          match send_to_manychat env messenger_user_id "content20240917152105_198581"
              (some "Organizer with this email already exists") with
          | .error e => ⟨.error e, store, t2⟩
          | .ok _ => ⟨.ok ⟨409, .error "Organizer with this email already exists"⟩, store, t2⟩
        else
          match env.embed organizer_name with
          | .error e => ⟨.error e, store, t1 ++ [ExtCall.embedCall (some organizer_name)]⟩
          | .ok embedding =>
            let store2 := store.upsertOrganizerRec organizer_email
              ⟨organizer_name, organizer_email, messenger_user_id, embedding⟩
            let t2 := t1 ++ [ExtCall.embedCall (some organizer_name),
              ExtCall.upsertOrganizer organizer_email,
              ExtCall.notifyCall messenger_user_id "content20240917151147_157784" none]
            match send_to_manychat env messenger_user_id "content20240917151147_157784" none with
            | .error e => ⟨.error e, store2, t2⟩
            | .ok _ => ⟨.ok ⟨200, .message "Organizer registered successfully"⟩, store2, t2⟩

/-- The key `data[...]` raises on first, in the order the code reads the
fields (lines 56-58). -/
def firstMissingKey (data : RegInput) : String :=
  match data.messenger_user_id with
  | none => "messenger_user_id"
  | some _ =>
    match data.organizer_name with
    | none => "organizer_name"
    | some _ => "organizer_email"

/-! ## app.py -/

/-- Oracles for the external services used by app.py: the OpenAI
completion call of `validate_event_data` (line 30, may raise; returns
the raw response text), the Python builtin `eval` applied to that text
(line 65: it may raise, and when the evaluated object behaves as a
dict of verdicts its entries are returned), the OpenAI embedding call
(line 77), and the ManyChat `requests.post` of
`update_manychat_user_attribute` (line 185, returning the status code
and the `status` field of the response JSON). -/
structure AppEnv where
  completion : String → Except PyErr String
  pyEval : String → Except PyErr (List (String × String))
  embed : Option String → Except PyErr Nat
  setAttrPost : Option String → String → String → Except PyErr (Nat × Option String)

/-- The /create-event request payload (app.py lines 46-53, all read
with `data.get`, so every field is optional). -/
structure EventInput where
  organizer_email : Option String
  event_title : Option String
  event_description : Option String
  event_start_date : Option String
  event_end_date : Option String
  event_location : Option String
  event_location_map : Option String
  event_graphics : Option String
  messenger_user_id : Option String
  deriving DecidableEq

/-- The f-string prompt of `validate_event_data` (app.py lines 20-27). -/
def validation_prompt (event_location event_start_date event_end_date
    event_location_map event_graphics : Option String) : String :=
  "Check the validity of the following event data:\n    1. Event location: \""
    ++ pyStr event_location
    ++ "\" - should be precise enough for visitors to navigate.\n    2. Event start date: \""
    ++ pyStr event_start_date
    ++ "\" - should be earlier than event end date.\n    3. Event end date: \""
    ++ pyStr event_end_date
    ++ "\".\n    4. Event location map: \""
    ++ pyStr event_location_map
    ++ "\" - should be a valid Google Maps link.\n    5. Event graphics: \""
    ++ pyStr event_graphics
    ++ "\" - should be a valid image link.\n\n    Return a JSON object where each field has either \x27OK\x27 or an error message if invalid."

/-- app.py lines 19-39: build the prompt, call the completion service,
return the stripped response text, or `None` when the call raised. -/
def validate_event_data (env : AppEnv) (event_location event_start_date event_end_date
    event_location_map event_graphics : Option String) : Option String × List ExtCall :=
  let prompt := validation_prompt event_location event_start_date event_end_date
    event_location_map event_graphics
  match env.completion prompt with
  | .error _ => (none, [ExtCall.completionCall prompt])
  | .ok text => (some text.trim, [ExtCall.completionCall prompt])

/-- app.py line 68: `any(v != 'OK' for v in validation_result_json.values())`. -/
def verdict_failed (verdicts : List (String × String)) : Bool :=
  verdicts.any (fun kv => kv.2 != "OK")

/-- app.py line 84: `event_id = f"{organizer_email}-{event_title}-{event_start_date}"`. -/
def event_key (organizer_email event_title event_start_date : String) : String :=
  organizer_email ++ "-" ++ event_title ++ "-" ++ event_start_date

/-- app.py lines 172-195: post the attribute update; any exception is
caught and turned into `False`, otherwise succeed exactly when the
status code is 200 and the response JSON has status "success". -/
def update_manychat_user_attribute (env : AppEnv) (messenger_user_id : Option String)
    (field_name field_value : String) : Bool :=
  match env.setAttrPost messenger_user_id field_name field_value with
  | .error _ => false
  | .ok (code, status) => code == 200 && status == some "success"

/-- app.py lines 77-104, after the organizer was found: embed the event
description, upsert the event record under the concatenated key, update
the ManyChat attribute (result only logged), return 200.  The returned
trace covers only these calls; the caller prepends its own prefix. -/
def create_event_after_fetch (env : AppEnv) (store : Store) (data : EventInput)
    (organizer_email event_title event_start_date event_end_date event_location : String) :
    Except PyErr Resp × Store × List ExtCall :=
  match env.embed data.event_description with
  | .error e => (.error e, store, [ExtCall.embedCall data.event_description])
  | .ok event_embedding =>
    let event_id := event_key organizer_email event_title event_start_date
    let store2 := store.upsertEventRec event_id
      ⟨organizer_email, event_title, data.event_description, event_start_date,
       event_end_date, event_location, data.event_location_map,
       data.event_graphics, event_embedding⟩
    let _ := update_manychat_user_attribute env data.messenger_user_id
      "event_addition" "success"
    (.ok ⟨200, .message ("Event " ++ event_title ++ " created successfully")⟩, store2,
      [ExtCall.embedCall data.event_description, ExtCall.upsertEvent event_id,
       ExtCall.setAttr data.messenger_user_id "event_addition" "success"])

/-- app.py lines 60-104, after the required-field check passed: semantic
validation via the completion service, `eval` of the response text,
verdict check, organizer lookup, then `create_event_after_fetch`. -/
def create_event_validated (env : AppEnv) (store : Store) (data : EventInput)
    (organizer_email event_title event_start_date event_end_date event_location : String) :
    Except PyErr Resp × Store × List ExtCall :=
  match validate_event_data env (some event_location) (some event_start_date)
      (some event_end_date) data.event_location_map data.event_graphics with
  | (validation_result, t1) =>
    match validation_result with
    | none => (.ok ⟨500, .error "Failed to validate event data"⟩, store, t1)
    | some vtext =>
      let t2 := t1 ++ [ExtCall.evalCall vtext]
      match env.pyEval vtext with
      | .error e => (.error e, store, t2)
      | .ok validation_result_json =>
        if verdict_failed validation_result_json then
          (.ok ⟨400, .errorWithDetails "Event data validation failed" validation_result_json⟩,
            store, t2)
        else
          let t3 := t2 ++ [ExtCall.fetchOrganizer organizer_email]
          if (store.organizers.lookup organizer_email).isNone then
            (.ok ⟨404, .error "Organizer not found"⟩, store, t3)
          else
            match create_event_after_fetch env store data organizer_email event_title
                event_start_date event_end_date event_location with
            | (out, s2, t4) => (out, s2, t3 ++ t4)

/-- The body of the try block of app.py lines 43-104.  The match on the
five required fields together with the emptiness test models
`if not all([organizer_email, event_title, event_start_date,
event_end_date, event_location])` (line 56): a field that is `None` or
the empty string is falsy. -/
def create_event_try (env : AppEnv) (store : Store) (data : EventInput) :
    Except PyErr Resp × Store × List ExtCall :=
  match data.organizer_email, data.event_title, data.event_start_date,
      data.event_end_date, data.event_location with
  | some organizer_email, some event_title, some event_start_date,
      some event_end_date, some event_location =>
    if organizer_email == "" || event_title == "" || event_start_date == ""
        || event_end_date == "" || event_location == "" then
      (.ok ⟨400, .error "All fields are required"⟩, store, [])
    else
      create_event_validated env store data organizer_email event_title
        event_start_date event_end_date event_location
  | _, _, _, _, _ => (.ok ⟨400, .error "All fields are required"⟩, store, [])

/-- app.py lines 41-107: the whole /create-event handler.  Any exception
raised inside the try block is caught and converted to a 500 JSON
response carrying the exception message (lines 105-107). -/
def create_event (env : AppEnv) (store : Store) (data : EventInput) : RunResult :=
  match create_event_try env store data with
  | (.ok r, s, t) => ⟨.ok r, s, t⟩
  | (.error e, s, t) => ⟨.ok ⟨500, .error e.msg⟩, s, t⟩

/-! ## Concrete fixtures used by witnesses and counterexamples -/

def store0 : Store := ⟨[], []⟩

def regEnvOk : RegEnv := ⟨fun _ => .ok 7, fun _ _ _ => .ok 200⟩

def regEnvNotifyDown : RegEnv :=
  ⟨fun _ => .ok 7, fun _ _ _ => .error (.transport "connection refused")⟩

def regEnvEmbedDown : RegEnv :=
  ⟨fun _ => .error (.serviceError "embedding service down"), fun _ _ _ => .ok 200⟩

def regData1 : RegInput := ⟨some "u1", some "Alice", some "a@x.com"⟩

def regData2 : RegInput := ⟨some "u2", some "Bob", some "b@y.com"⟩

def appEnvOkAll : AppEnv :=
  ⟨fun _ => .ok "VERDICT", fun _ => .ok [("Event location", "OK")],
   fun _ => .ok 9, fun _ _ _ => .ok (200, some "success")⟩

def appEnvEmptyVerdict : AppEnv :=
  ⟨fun _ => .ok "VERDICT", fun _ => .ok [], fun _ => .ok 9,
   fun _ _ _ => .ok (200, some "success")⟩

def appEnvEvalDown : AppEnv :=
  ⟨fun _ => .ok "VERDICT", fun _ => .error (.serviceError "eval boom"),
   fun _ => .ok 9, fun _ _ _ => .ok (200, some "success")⟩

def evData : EventInput :=
  ⟨some "a@x.com", some "Party", some "A fun party", some "2025-01-01",
   some "2025-01-02", some "Berlin", some "maps.google.com/x", some "img.example/x",
   some "u1"⟩

/-- A store already holding the organizer record of `regData1`. -/
def storeWithAlice : Store := ⟨[("a@x.com", ⟨"Alice", "a@x.com", "u1", 7⟩)], []⟩

/-- An event payload whose `event_location` is the empty string. -/
def evDataEmptyLoc : EventInput :=
  ⟨some "a@x.com", some "Party", some "A fun party", some "2025-01-01",
   some "2025-01-02", some "", some "maps.google.com/x", some "img.example/x",
   some "u1"⟩

/-! ## Theorems -/

/-- C6: the event key is `organizer_email ++ "-" ++ event_title ++ "-"
++ event_start_date`; the derivation is deterministic, and two triples
differing in exactly one component always yield different keys. -/
theorem event_key_deterministic_and_componentwise_injective :
    (∀ e1 e2 t1 t2 d1 d2 : String, e1 = e2 → t1 = t2 → d1 = d2 →
      event_key e1 t1 d1 = event_key e2 t2 d2)
    ∧ (∀ e1 e2 t d : String, e1 ≠ e2 → event_key e1 t d ≠ event_key e2 t d)
    ∧ (∀ e t1 t2 d : String, t1 ≠ t2 → event_key e t1 d ≠ event_key e t2 d)
    ∧ (∀ e t d1 d2 : String, d1 ≠ d2 → event_key e t d1 ≠ event_key e t d2) := by
  refine ⟨?_, ?_, ?_, ?_⟩
  · intro e1 e2 t1 t2 d1 d2 he ht hd
    rw [he, ht, hd]
  · intro e1 e2 t d h hk
    apply h
    have hd := congrArg String.data hk
    simp only [event_key, String.data_append] at hd
    exact String.ext (List.append_cancel_right (List.append_cancel_right
      (List.append_cancel_right (List.append_cancel_right hd))))
  · intro e t1 t2 d h hk
    apply h
    have hd := congrArg String.data hk
    simp only [event_key, String.data_append] at hd
    exact String.ext (List.append_cancel_left (List.append_cancel_right
      (List.append_cancel_right hd)))
  · intro e t d1 d2 h hk
    apply h
    have hd := congrArg String.data hk
    simp only [event_key, String.data_append] at hd
    exact String.ext (List.append_cancel_left hd)

/-- Witness for C6 at concrete strings. -/
theorem event_key_deterministic_and_componentwise_injective_witness :
    event_key "a@x.com" "Party" "2025-01-01" = event_key "a@x.com" "Party" "2025-01-01"
    ∧ event_key "a@x.com" "Party" "2025-01-01" ≠ event_key "b@y.com" "Party" "2025-01-01"
    ∧ event_key "a@x.com" "Party" "2025-01-01" ≠ event_key "a@x.com" "Gala" "2025-01-01"
    ∧ event_key "a@x.com" "Party" "2025-01-01" ≠ event_key "a@x.com" "Party" "2025-02-02" :=
  ⟨event_key_deterministic_and_componentwise_injective.1 _ _ _ _ _ _ rfl rfl rfl,
   event_key_deterministic_and_componentwise_injective.2.1 _ _ _ _ (by decide),
   event_key_deterministic_and_componentwise_injective.2.2.1 _ _ _ _ (by decide),
   event_key_deterministic_and_componentwise_injective.2.2.2 _ _ _ _ (by decide)⟩

/-- C10: the semantic-validation acceptance check passes exactly when
every value in the parsed verdict object equals "OK"; on a verdict
object with no fields it passes vacuously and the workflow proceeds to
the organizer lookup. -/
theorem verdict_check_passes_iff_all_ok_and_empty_passes :
    (∀ verdicts : List (String × String),
      (verdict_failed verdicts = false ↔ verdicts.all (fun kv => kv.2 == "OK") = true))
    ∧ verdict_failed [] = false
    ∧ ∀ (env : AppEnv) (store : Store) (data : EventInput) (e t sd ed loc vtext : String),
        data.organizer_email = some e → data.event_title = some t →
        data.event_start_date = some sd → data.event_end_date = some ed →
        data.event_location = some loc →
        (e == "") = false → (t == "") = false → (sd == "") = false →
        (ed == "") = false → (loc == "") = false →
        env.completion (validation_prompt (some loc) (some sd) (some ed)
          data.event_location_map data.event_graphics) = .ok vtext →
        env.pyEval vtext.trim = .ok [] →
        ExtCall.fetchOrganizer e ∈ (create_event env store data).calls := by
  refine ⟨?_, rfl, ?_⟩
  · intro verdicts
    simp [verdict_failed, List.any_eq_false, List.all_eq_true, bne]
  · intro env store data e t sd ed loc vtext h1 h2 h3 h4 h5 he ht hsd hed hloc hc hev
    simp only [create_event, create_event_try, h1, h2, h3, h4, h5, he, ht, hsd, hed, hloc,
      Bool.or_self, Bool.or_false, if_false]
    simp only [create_event_validated, validate_event_data, hc, hev, verdict_failed,
      List.any_nil]
    rcases haf : create_event_after_fetch env store data e t sd ed loc with ⟨out, s2, t4⟩
    cases hl : (store.organizers.lookup e).isNone <;> cases out <;> simp [hl, haf]

/-- Witness for C10: a singleton all-OK verdict list, the empty verdict
list, and a concrete run with an empty parsed verdict object that
reaches the organizer lookup. -/
theorem verdict_check_passes_iff_all_ok_and_empty_passes_witness :
    (verdict_failed [("Event location", "OK")] = false
      ↔ [("Event location", "OK")].all (fun kv => kv.2 == "OK") = true)
    ∧ verdict_failed [] = false
    ∧ ExtCall.fetchOrganizer "a@x.com" ∈ (create_event appEnvEmptyVerdict store0 evData).calls :=
  ⟨verdict_check_passes_iff_all_ok_and_empty_passes.1 _,
   verdict_check_passes_iff_all_ok_and_empty_passes.2.1,
   verdict_check_passes_iff_all_ok_and_empty_passes.2.2 appEnvEmptyVerdict store0 evData
     "a@x.com" "Party" "2025-01-01" "2025-01-02" "Berlin" "VERDICT"
     rfl rfl rfl rfl rfl (by decide) (by decide) (by decide) (by decide) (by decide) rfl rfl⟩

/-- C2: with a previously-unseen organizer email and non-raising
embedding and notification services, registration returns 200 and the
trace contains exactly one organizer upsert; an immediately repeated
identical call finds the record and returns 409, with no embedding and
no upsert call and the store unchanged. -/
theorem register_organizer_first_success_then_conflict
    (env : RegEnv) (store : Store) (data : RegInput) (u n e : String) (emb : Nat)
    (hu : data.messenger_user_id = some u)
    (hn : data.organizer_name = some n)
    (he : data.organizer_email = some e)
    (hfresh : store.organizers.lookup e = none)
    (hembed : env.embed n = .ok emb)
    (hnotify : ∀ cid m, ∃ code, env.notifyPost u cid m = .ok code) :
    (register_organizer env store data).outcome
        = .ok ⟨200, .message "Organizer registered successfully"⟩
    ∧ (register_organizer env store data).calls.countP (fun c => c.isUpsertOrganizer) = 1
    ∧ (register_organizer env store data).store.organizers.lookup e = some ⟨n, e, u, emb⟩
    ∧ (register_organizer env (register_organizer env store data).store data).outcome
        = .ok ⟨409, .error "Organizer with this email already exists"⟩
    ∧ ((register_organizer env (register_organizer env store data).store data).calls.all
        (fun c => !c.isEmbed && !c.isUpsertOrganizer)) = true
    ∧ (register_organizer env (register_organizer env store data).store data).store
        = (register_organizer env store data).store := by
  obtain ⟨c1, hc1⟩ := hnotify "content20240917151147_157784" none
  obtain ⟨c2, hc2⟩ := hnotify "content20240917152105_198581"
    (some "Organizer with this email already exists")
  have h1 : register_organizer env store data =
      ⟨.ok ⟨200, .message "Organizer registered successfully"⟩,
       store.upsertOrganizerRec e ⟨n, e, u, emb⟩,
       [ExtCall.fetchOrganizer e, ExtCall.embedCall (some n),
        ExtCall.upsertOrganizer e,
        ExtCall.notifyCall u "content20240917151147_157784" none]⟩ := by
    simp [register_organizer, hu, hn, he, hfresh, hembed, send_to_manychat, hc1]
  have hlook : (store.upsertOrganizerRec e ⟨n, e, u, emb⟩).organizers.lookup e
      = some ⟨n, e, u, emb⟩ := by
    simp [Store.upsertOrganizerRec, List.lookup]
  have h2 : register_organizer env (store.upsertOrganizerRec e ⟨n, e, u, emb⟩) data =
      ⟨.ok ⟨409, .error "Organizer with this email already exists"⟩,
       store.upsertOrganizerRec e ⟨n, e, u, emb⟩,
       [ExtCall.fetchOrganizer e,
        ExtCall.notifyCall u "content20240917152105_198581"
          (some "Organizer with this email already exists")]⟩ := by
    simp [register_organizer, hu, hn, he, hlook, send_to_manychat, hc2]
  rw [h1]
  dsimp only
  rw [h2]
  refine ⟨rfl, rfl, hlook, rfl, rfl, rfl⟩

/-- Witness for C2 at the concrete scenario from the spec:
register Alice, then repeat the identical call. -/
theorem register_organizer_first_success_then_conflict_witness :
    (register_organizer regEnvOk store0 regData1).outcome
        = .ok ⟨200, .message "Organizer registered successfully"⟩
    ∧ (register_organizer regEnvOk (register_organizer regEnvOk store0 regData1).store
        regData1).outcome = .ok ⟨409, .error "Organizer with this email already exists"⟩ :=
  ⟨(register_organizer_first_success_then_conflict regEnvOk store0 regData1 "u1" "Alice"
      "a@x.com" 7 rfl rfl rfl rfl rfl (fun _ _ => ⟨200, rfl⟩)).1,
   (register_organizer_first_success_then_conflict regEnvOk store0 regData1 "u1" "Alice"
      "a@x.com" 7 rfl rfl rfl rfl rfl (fun _ _ => ⟨200, rfl⟩)).2.2.2.1⟩

/-- Counterexample to C3 as stated: a registration payload missing
`messenger_user_id` makes the workflow raise `KeyError` (no HTTP
response is produced at all), instead of returning a 400
ValidationError; no embedding or store call is made. -/
theorem register_organizer_missing_field_counterexample :
    register_organizer regEnvOk store0 ⟨none, some "Alice", some "a@x.com"⟩
      = ⟨.error (.keyError "messenger_user_id"), store0, []⟩
    ∧ isOkResp (register_organizer regEnvOk store0
        ⟨none, some "Alice", some "a@x.com"⟩).outcome = false :=
  ⟨rfl, rfl⟩

/-- C3 as amended: a registration payload missing any of the three
required fields makes `data[...]` raise `KeyError` for the first
missing key (the exception propagates, there is no 400 response), and
no embedding call and no vector-store call is made. -/
theorem register_organizer_missing_field_raises_keyerror
    (env : RegEnv) (store : Store) (data : RegInput)
    (h : data.messenger_user_id = none ∨ data.organizer_name = none ∨
      data.organizer_email = none) :
    (register_organizer env store data).outcome
        = .error (.keyError (firstMissingKey data))
    ∧ (register_organizer env store data).store = store
    ∧ (register_organizer env store data).calls = [] := by
  obtain ⟨u, n, e⟩ := data
  cases u <;> cases n <;> cases e <;>
    simp_all [register_organizer, firstMissingKey]

/-- Witness for the amended C3: a payload missing `organizer_name`. -/
theorem register_organizer_missing_field_raises_keyerror_witness :
    (register_organizer regEnvOk store0 ⟨some "u9", none, some "c@z.com"⟩).outcome
        = .error (.keyError "organizer_name")
    ∧ (register_organizer regEnvOk store0 ⟨some "u9", none, some "c@z.com"⟩).store = store0
    ∧ (register_organizer regEnvOk store0 ⟨some "u9", none, some "c@z.com"⟩).calls = [] :=
  register_organizer_missing_field_raises_keyerror regEnvOk store0
    ⟨some "u9", none, some "c@z.com"⟩ (Or.inr (Or.inl rfl))

/-- Counterexample to C4 as stated: with a working notification service
registration of `regData1` returns 200, but when the notification POST
raises a transport error the very same registration call raises to the
caller instead, changing the HTTP-level outcome. -/
theorem notification_transport_error_changes_outcome :
    (register_organizer regEnvOk store0 regData1).outcome
        = .ok ⟨200, .message "Organizer registered successfully"⟩
    ∧ (register_organizer regEnvNotifyDown store0 regData1).outcome
        = .error (.transport "connection refused") :=
  ⟨rfl, rfl⟩

/-- C4 as amended: in the event-creation workflow the attribute-setting
call can never change the result (its `requests.post` is wrapped in
try/except and its boolean result is only logged), and in the
registration workflow notification calls that return a response -- of
any status code, success or not -- never change the result; only a
raising (transport-error) notification POST in the registration
workflow escapes, as shown by the counterexample. -/
theorem notification_nonraising_failures_preserve_outcome :
    (∀ (c : String → Except PyErr String)
        (p : String → Except PyErr (List (String × String)))
        (em : Option String → Except PyErr Nat)
        (f g : Option String → String → String → Except PyErr (Nat × Option String))
        (store : Store) (data : EventInput),
        create_event ⟨c, p, em, f⟩ store data = create_event ⟨c, p, em, g⟩ store data)
    ∧ ∀ (embedF : String → Except PyErr Nat)
        (n1 n2 : String → String → Option String → Except PyErr Nat)
        (store : Store) (data : RegInput),
        (∀ u cid m, ∃ code, n1 u cid m = .ok code) →
        (∀ u cid m, ∃ code, n2 u cid m = .ok code) →
        register_organizer ⟨embedF, n1⟩ store data
          = register_organizer ⟨embedF, n2⟩ store data := by
  constructor
  · intro c p em f g store data
    rfl
  · intro embedF n1 n2 store data hn1 hn2
    obtain ⟨u, n, e⟩ := data
    cases u with
    | none => rfl
    | some u =>
      cases n with
      | none => rfl
      | some n =>
        cases e with
        | none => rfl
        | some e =>
          by_cases hl : (store.organizers.lookup e).isSome = true
          · obtain ⟨a, ha⟩ := hn1 u "content20240917152105_198581"
              (some "Organizer with this email already exists")
            obtain ⟨b, hb⟩ := hn2 u "content20240917152105_198581"
              (some "Organizer with this email already exists")
            simp [register_organizer, hl, send_to_manychat, ha, hb]
          · cases hembed : embedF n with
            | error err => simp [register_organizer, hl, hembed]
            | ok emb =>
              obtain ⟨a, ha⟩ := hn1 u "content20240917151147_157784" none
              obtain ⟨b, hb⟩ := hn2 u "content20240917151147_157784" none
              simp [register_organizer, hl, hembed, send_to_manychat, ha, hb]

/-- Witness for the amended C4: a failing (transport-error)
attribute-setting service leaves the event-creation result unchanged,
and a 500-status notification response leaves the registration result
unchanged. -/
theorem notification_nonraising_failures_preserve_outcome_witness :
    create_event ⟨fun _ => .ok "VERDICT", fun _ => .ok [], fun _ => .ok 9,
        fun _ _ _ => .ok (200, some "success")⟩ store0 evData
      = create_event ⟨fun _ => .ok "VERDICT", fun _ => .ok [], fun _ => .ok 9,
        fun _ _ _ => .error (.transport "manychat down")⟩ store0 evData
    ∧ register_organizer ⟨fun _ => .ok 7, fun _ _ _ => .ok 200⟩ store0 regData1
      = register_organizer ⟨fun _ => .ok 7, fun _ _ _ => .ok 500⟩ store0 regData1 :=
  ⟨notification_nonraising_failures_preserve_outcome.1 _ _ _ _ _ store0 evData,
   notification_nonraising_failures_preserve_outcome.2 _ _ _ store0 regData1
     (fun _ _ _ => ⟨200, rfl⟩) (fun _ _ _ => ⟨500, rfl⟩)⟩

/-- Counterexample to C5 as stated: in the registration workflow an
exception raised by the embedding call propagates uncaught -- no
500-equivalent JSON response is produced at the workflow boundary. -/
theorem register_organizer_unhandled_exception_counterexample :
    (register_organizer regEnvEmbedDown store0 regData2).outcome
        = .error (.serviceError "embedding service down")
    ∧ isOkResp (register_organizer regEnvEmbedDown store0 regData2).outcome = false :=
  ⟨rfl, rfl⟩

/-- C5 as amended: the event-creation workflow always produces an HTTP
response, and whenever its try-block body raises, the boundary handler
converts the exception into a 500 JSON response carrying exactly the
exception message.  (The registration workflow has no such handler, as
the counterexample shows.) -/
theorem create_event_boundary_catches_exceptions
    (env : AppEnv) (store : Store) (data : EventInput) :
    isOkResp (create_event env store data).outcome = true
    ∧ ∀ e : PyErr, (create_event_try env store data).1 = .error e →
        (create_event env store data).outcome = .ok ⟨500, .error e.msg⟩ := by
  constructor
  · rcases hct : create_event_try env store data with ⟨out, s, t⟩
    cases out <;> simp [create_event, hct, isOkResp]
  · intro e he
    rcases hct : create_event_try env store data with ⟨out, s, t⟩
    rw [hct] at he
    simp only at he
    subst he
    simp [create_event, hct]

/-- Witness for the amended C5: a raising `eval` inside the try block
of /create-event is converted into a 500 response with its message. -/
theorem create_event_boundary_catches_exceptions_witness :
    isOkResp (create_event appEnvEvalDown store0 evData).outcome = true
    ∧ (create_event appEnvEvalDown store0 evData).outcome
        = .ok ⟨500, .error "eval boom"⟩ :=
  ⟨(create_event_boundary_catches_exceptions appEnvEvalDown store0 evData).1,
   (create_event_boundary_catches_exceptions appEnvEvalDown store0 evData).2
     (.serviceError "eval boom") rfl⟩

/-- Counterexample to C8 as stated: with the organizer registered and a
healthy validation service, an event payload whose `event_location` is
the empty string is rejected by the required-field check with the bare
"All fields are required" 400 -- no per-field verdict details are
attached, and no external call (semantic validation, embedding or
upsert) is made at all. -/
theorem create_event_empty_location_counterexample :
    create_event appEnvOkAll storeWithAlice evDataEmptyLoc
      = ⟨.ok ⟨400, .error "All fields are required"⟩, storeWithAlice, []⟩
    ∧ respHasDetails (create_event appEnvOkAll storeWithAlice evDataEmptyLoc).outcome
        = false :=
  ⟨rfl, rfl⟩

/-- C8 as amended: an empty `event_location` is falsy in the Python
`all([...])` required-field check, so the workflow returns the plain
400 "All fields are required" response before semantic validation ever
runs: no completion call, no upsert, no details attached. -/
theorem create_event_empty_location_field_validation
    (env : AppEnv) (store : Store) (data : EventInput)
    (h : data.event_location = some "") :
    create_event env store data
      = ⟨.ok ⟨400, .error "All fields are required"⟩, store, []⟩ := by
  obtain ⟨oe, et, ds, sd, ed, loc, mp, gx, uid⟩ := data
  subst h
  cases oe <;> cases et <;> cases sd <;> cases ed <;>
    simp [create_event, create_event_try]

/-- Witness for the amended C8. -/
theorem create_event_empty_location_field_validation_witness :
    create_event appEnvOkAll store0 evDataEmptyLoc
      = ⟨.ok ⟨400, .error "All fields are required"⟩, store0, []⟩ :=
  create_event_empty_location_field_validation appEnvOkAll store0 evDataEmptyLoc rfl

/-- C1 (evidence for the code bug): once the required-field check
passes and the completion service returns a response text, the workflow
hands the raw (stripped) response text of the external completion
service to the Python builtin `eval` (app.py line 65), whose own
comment claims to "convert the OpenAI response to JSON".  The text is
executed as code, not parsed as data, in every environment and store. -/
theorem create_event_passes_completion_text_to_eval
    (env : AppEnv) (store : Store) (data : EventInput) (e t sd ed loc vtext : String)
    (h1 : data.organizer_email = some e) (h2 : data.event_title = some t)
    (h3 : data.event_start_date = some sd) (h4 : data.event_end_date = some ed)
    (h5 : data.event_location = some loc)
    (he : (e == "") = false) (ht : (t == "") = false) (hsd : (sd == "") = false)
    (hed : (ed == "") = false) (hloc : (loc == "") = false)
    (hc : env.completion (validation_prompt (some loc) (some sd) (some ed)
      data.event_location_map data.event_graphics) = .ok vtext) :
    ExtCall.evalCall vtext.trim ∈ (create_event env store data).calls := by
  simp only [create_event, create_event_try, h1, h2, h3, h4, h5, he, ht, hsd, hed, hloc,
    Bool.or_self, Bool.or_false, if_false]
  simp only [create_event_validated, validate_event_data, hc]
  rcases hev : env.pyEval vtext.trim with err | verdicts <;> simp only [hev]
  · simp
  · cases hvf : verdict_failed verdicts
    · rcases haf : create_event_after_fetch env store data e t sd ed loc with ⟨out, s2, t4⟩
      cases hl : (store.organizers.lookup e).isNone <;> cases out <;> simp [hvf, hl, haf]
    · simp [hvf]

/-- Witness for C1: a concrete run in which the completion response
text reaches `eval`. -/
theorem create_event_passes_completion_text_to_eval_witness :
    ExtCall.evalCall ("VERDICT".trim) ∈ (create_event appEnvOkAll store0 evData).calls :=
  create_event_passes_completion_text_to_eval appEnvOkAll store0 evData
    "a@x.com" "Party" "2025-01-01" "2025-01-02" "Berlin" "VERDICT"
    rfl rfl rfl rfl rfl (by decide) (by decide) (by decide) (by decide) (by decide) rfl

/-- C7: when the organizer email has no record in the organizer
collection, the event-creation workflow never calls the embedding
client and never upserts an event (on any path), leaves the store
unchanged, and -- when field validation and semantic validation pass --
returns the 404 "Organizer not found" response. -/
theorem create_event_unregistered_email_guard
    (env : AppEnv) (store : Store) (data : EventInput) (e : String)
    (h1 : data.organizer_email = some e)
    (hmiss : store.organizers.lookup e = none) :
    ((create_event env store data).calls.all
        (fun c => !c.isEmbed && !c.isUpsertEvent)) = true
    ∧ (create_event env store data).store = store
    ∧ ∀ (t sd ed loc vtext : String) (verdicts : List (String × String)),
        data.event_title = some t → data.event_start_date = some sd →
        data.event_end_date = some ed → data.event_location = some loc →
        (e == "") = false → (t == "") = false → (sd == "") = false →
        (ed == "") = false → (loc == "") = false →
        env.completion (validation_prompt (some loc) (some sd) (some ed)
          data.event_location_map data.event_graphics) = .ok vtext →
        env.pyEval vtext.trim = .ok verdicts →
        verdict_failed verdicts = false →
        (create_event env store data).outcome
          = .ok ⟨404, .error "Organizer not found"⟩ := by
  have hmain : ((create_event env store data).calls.all
      (fun c => !c.isEmbed && !c.isUpsertEvent)) = true
      ∧ (create_event env store data).store = store := by
    rcases het : data.event_title with _ | t <;>
    rcases hsdx : data.event_start_date with _ | sdv <;>
    rcases hedx : data.event_end_date with _ | edv <;>
    rcases hlocx : data.event_location with _ | locv <;>
    simp only [create_event, create_event_try, h1, het, hsdx, hedx, hlocx] <;>
    try exact ⟨rfl, trivial⟩
    cases h1b : (e == "") <;> cases h2b : (t == "") <;> cases h3b : (sdv == "") <;>
      cases h4b : (edv == "") <;> cases h5b : (locv == "") <;>
      simp only [h1b, h2b, h3b, h4b, h5b, Bool.false_or, Bool.or_false, Bool.or_self,
        Bool.true_or, Bool.or_true] <;>
    try first
    | exact ⟨rfl, rfl⟩
    | exact ⟨rfl, trivial⟩
    simp only [create_event_validated, validate_event_data]
    rcases hcr : env.completion (validation_prompt (some locv) (some sdv) (some edv)
        data.event_location_map data.event_graphics) with err | vtext <;> simp only [hcr]
    · simp [ExtCall.isEmbed, ExtCall.isUpsertEvent]
    · rcases hev : env.pyEval vtext.trim with err2 | verdicts <;> simp only [hev]
      · simp [ExtCall.isEmbed, ExtCall.isUpsertEvent]
      · cases hvf : verdict_failed verdicts
        · simp [hvf, hmiss, ExtCall.isEmbed, ExtCall.isUpsertEvent]
        · simp [hvf, ExtCall.isEmbed, ExtCall.isUpsertEvent]
  refine ⟨hmain.1, hmain.2, ?_⟩
  intro t sd ed loc vtext verdicts h2 h3 h4 h5 he ht hsd hed hloc hc hev hvf
  simp only [create_event, create_event_try, h1, h2, h3, h4, h5, he, ht, hsd, hed, hloc,
    Bool.or_self, Bool.or_false, if_false]
  simp only [create_event_validated, validate_event_data, hc, hev, hvf]
  simp [hmiss]

/-- Witness for C7: the concrete scenario from the spec -- an event
creation for an unregistered email returns 404, with no embedding call,
no event upsert and an unchanged store. -/
theorem create_event_unregistered_email_guard_witness :
    ((create_event appEnvOkAll store0 evData).calls.all
        (fun c => !c.isEmbed && !c.isUpsertEvent)) = true
    ∧ (create_event appEnvOkAll store0 evData).store = store0
    ∧ (create_event appEnvOkAll store0 evData).outcome
        = .ok ⟨404, .error "Organizer not found"⟩ :=
  ⟨(create_event_unregistered_email_guard appEnvOkAll store0 evData "a@x.com" rfl rfl).1,
   (create_event_unregistered_email_guard appEnvOkAll store0 evData "a@x.com" rfl rfl).2.1,
   (create_event_unregistered_email_guard appEnvOkAll store0 evData "a@x.com" rfl rfl).2.2
     "Party" "2025-01-01" "2025-01-02" "Berlin" "VERDICT" [("Event location", "OK")]
     rfl rfl rfl rfl (by decide) (by decide) (by decide) (by decide) (by decide)
     rfl rfl (by decide)⟩

/-- C9: `event_description` is not among the required fields checked by
the /create-event field validation: a request supplying the five
required fields but no description passes field validation (the
semantic-validation completion call is made and the bare-400 response
is never returned), and when semantic validation passes and the
organizer exists, the embedding client is called with the missing
(`None`) description. -/
theorem create_event_description_not_required
    (env : AppEnv) (store : Store) (data : EventInput) (e t sd ed loc : String)
    (h1 : data.organizer_email = some e) (h2 : data.event_title = some t)
    (h3 : data.event_start_date = some sd) (h4 : data.event_end_date = some ed)
    (h5 : data.event_location = some loc)
    (hdesc : data.event_description = none)
    (he : (e == "") = false) (ht : (t == "") = false) (hsd : (sd == "") = false)
    (hed : (ed == "") = false) (hloc : (loc == "") = false) :
    ExtCall.completionCall (validation_prompt (some loc) (some sd) (some ed)
        data.event_location_map data.event_graphics) ∈ (create_event env store data).calls
    ∧ (create_event env store data).outcome ≠ .ok ⟨400, .error "All fields are required"⟩
    ∧ ∀ (vtext : String) (verdicts : List (String × String)) (rec : OrganizerRecord),
        env.completion (validation_prompt (some loc) (some sd) (some ed)
          data.event_location_map data.event_graphics) = .ok vtext →
        env.pyEval vtext.trim = .ok verdicts →
        verdict_failed verdicts = false →
        store.organizers.lookup e = some rec →
        ExtCall.embedCall none ∈ (create_event env store data).calls := by
  refine ⟨?_, ?_, ?_⟩
  · simp only [create_event, create_event_try, h1, h2, h3, h4, h5, he, ht, hsd, hed, hloc,
      Bool.or_self, Bool.or_false, if_false]
    simp only [create_event_validated, validate_event_data]
    rcases hcr : env.completion (validation_prompt (some loc) (some sd) (some ed)
        data.event_location_map data.event_graphics) with err | vtext <;> simp only [hcr]
    · simp
    · rcases hev : env.pyEval vtext.trim with err2 | verdicts <;> simp only [hev]
      · simp
      · cases hvf : verdict_failed verdicts
        · rcases haf : create_event_after_fetch env store data e t sd ed loc with ⟨out, s2, t4⟩
          cases hl : (store.organizers.lookup e).isNone <;> cases out <;> simp [hvf, hl, haf]
        · simp [hvf]
  · simp only [create_event, create_event_try, h1, h2, h3, h4, h5, he, ht, hsd, hed, hloc,
      Bool.or_self, Bool.or_false, if_false]
    simp only [create_event_validated, validate_event_data]
    rcases hcr : env.completion (validation_prompt (some loc) (some sd) (some ed)
        data.event_location_map data.event_graphics) with err | vtext <;> simp only [hcr]
    · simp
    · rcases hev : env.pyEval vtext.trim with err2 | verdicts <;> simp only [hev]
      · simp
      · cases hvf : verdict_failed verdicts
        · simp only [create_event_after_fetch]
          rcases hemb : env.embed data.event_description with err3 | emb <;>
            cases hl : (store.organizers.lookup e).isNone <;> simp [hvf, hl, hemb]
        · simp [hvf]
  · intro vtext verdicts rec hc hev hvf hfound
    simp only [create_event, create_event_try, h1, h2, h3, h4, h5, he, ht, hsd, hed, hloc,
      Bool.or_self, Bool.or_false, if_false]
    simp only [create_event_validated, validate_event_data, hc, hev, hvf]
    simp only [create_event_after_fetch, hdesc]
    rcases hemb : env.embed none with err3 | emb <;> simp [hfound, hemb]

/-- Witness for C9: the concrete payload without a description passes
field validation and the embedding client is called with `None`. -/
theorem create_event_description_not_required_witness :
    (create_event appEnvOkAll storeWithAlice
        ⟨some "a@x.com", some "Party", none, some "2025-01-01", some "2025-01-02",
         some "Berlin", some "maps.google.com/x", some "img.example/x", some "u1"⟩).outcome
      ≠ .ok ⟨400, .error "All fields are required"⟩
    ∧ ExtCall.embedCall none ∈ (create_event appEnvOkAll storeWithAlice
        ⟨some "a@x.com", some "Party", none, some "2025-01-01", some "2025-01-02",
         some "Berlin", some "maps.google.com/x", some "img.example/x", some "u1"⟩).calls :=
  ⟨(create_event_description_not_required appEnvOkAll storeWithAlice _
      "a@x.com" "Party" "2025-01-01" "2025-01-02" "Berlin"
      rfl rfl rfl rfl rfl rfl
      (by decide) (by decide) (by decide) (by decide) (by decide)).2.1,
   (create_event_description_not_required appEnvOkAll storeWithAlice _
      "a@x.com" "Party" "2025-01-01" "2025-01-02" "Berlin"
      rfl rfl rfl rfl rfl rfl
      (by decide) (by decide) (by decide) (by decide) (by decide)).2.2
     "VERDICT" [("Event location", "OK")] ⟨"Alice", "a@x.com", "u1", 7⟩
     rfl rfl (by decide) rfl⟩

end Tixy
